import Mathlib

/-!
Verification of the AI-counter cafeteria point-of-sale system.

The repository is a browser point-of-sale demo: a detection module classifies
webcam frames with a three-class image model (caffee, water, empty), a cart
accumulates detected products, a stats module persists counters to local
storage, and an export module serializes orders to JSON downloads.

This file gives a shallow embedding of the relevant modules:
the detection pipeline (detectObjects and its product catalog), the
continuous-detection poller event loop, the cart, the stats record with its
persistence, the exporter, and the order-completion handler.  DOM rendering,
console logging and tensor disposal are side effects with no bearing on the
verified properties and are elided; JavaScript numbers are modelled as
rationals; the classifier output for a frame is carried on the frame record.
-/

/-! ## String helpers

The detection module cleans class names with String.prototype.trim and
String.prototype.toLowerCase.  The labels involved are ASCII, so these are
modelled on the underlying character list (Lean's own String.toLower is not
kernel-reducible, which these definitions are). -/

/-- The JavaScript operation String.prototype.toLowerCase, modelled on the
character list of the string. -/
def jsToLowerCase (s : String) : String :=
  String.mk (s.data.map Char.toLower)

/-- The JavaScript operation String.prototype.trim: removes leading and
trailing whitespace, modelled on the character list of the string. -/
def jsTrim (s : String) : String :=
  String.mk (((s.data.dropWhile Char.isWhitespace).reverse.dropWhile Char.isWhitespace).reverse)

/-! ## Product catalog (detection module) -/

/-- A catalog product, from the PRODUCTS table of the detection module. -/
structure Product where
  id : Nat
  nameAr : String
  nameEn : String
  price : ℚ
  modelClass : String
deriving DecidableEq, Repr

/-- The fixed product catalog of the detection module: coffee at 100 DZD and
water at 30 DZD, keyed by the model classes caffee and water. -/
def PRODUCTS : List Product :=
  [{ id := 1, nameAr := "قهوة", nameEn := "Coffee", price := 100, modelClass := "caffee" },
   { id := 2, nameAr := "ماء", nameEn := "Water", price := 30, modelClass := "water" }]

/-- The minimum confidence threshold of the detection module (0.5). -/
def MIN_CONFIDENCE : ℚ := mkRat 1 2

/-- The function mapClassToProduct of the detection module: trims and
lowercases the class name and looks it up against the trimmed, lowercased
model classes of the catalog, returning none when there is no match. -/
def mapClassToProduct (className : String) : Option Product :=
  let cleanName := jsToLowerCase (jsTrim className)
  PRODUCTS.find? (fun p => jsToLowerCase (jsTrim p.modelClass) == cleanName)

/-! ## Detection pipeline -/

/-- A cosmetic bounding box as produced by detectObjects. -/
structure BoundingBox where
  x : ℚ
  y : ℚ
  width : ℚ
  height : ℚ
deriving DecidableEq, Repr

/-- A detection event, as returned by detectObjects. -/
structure Detection where
  product : Product
  className : String
  confidence : ℚ
  displayName : String
  boundingBox : BoundingBox
deriving DecidableEq, Repr

/-- A video frame source together with the classifier behaviour on it: the
readyState and pixel dimensions of the video element, the probability vector
the loaded model produces for the current frame, and whether preprocessing or
prediction throws on this frame. -/
structure VideoElement where
  readyState : Nat
  videoWidth : Nat
  videoHeight : Nat
  probabilities : List ℚ
  inferenceThrows : Bool
deriving DecidableEq, Repr

/-- One step of the arg-max loop of detectObjects: the running maximum starts
at probability 0 and index 0 and is replaced only on a strictly greater
probability, so ties are broken by first occurrence. -/
def argmaxStep (probs : List ℚ) (acc : ℚ × Nat) (i : Nat) : ℚ × Nat :=
  if probs.getD i 0 > acc.1 then (probs.getD i 0, i) else acc

/-- The arg-max loop of detectObjects over the probability vector, returning
the maximum probability and its index. -/
def argmaxLoop (probs : List ℚ) : ℚ × Nat :=
  (List.range probs.length).foldl (argmaxStep probs) (0, 0)

/-- The fixed class-name table of the detection module. -/
def classNames : List String := ["caffee", "water", "empty"]

/-- The class name selected by the arg-max loop, with the fallback value
unknown when the index is out of range of the class-name table. -/
def winningLabel (probs : List ℚ) : String :=
  classNames.getD (argmaxLoop probs).2 "unknown"

/-- The detection record built by detectObjects for a successful match: the
box is a square centered on the frame with side 0.6 times the shorter frame
dimension, and missing pixel dimensions default to 640 by 480. -/
def mkDetection (v : VideoElement) (className : String) (confidence : ℚ)
    (product : Product) : Detection :=
  let videoWidth : ℚ := if v.videoWidth = 0 then 640 else (v.videoWidth : ℚ)
  let videoHeight : ℚ := if v.videoHeight = 0 then 480 else (v.videoHeight : ℚ)
  let boxSize : ℚ := min videoWidth videoHeight * mkRat 6 10
  { product := product
    className := className
    confidence := confidence
    displayName := product.nameAr ++ " / " ++ product.nameEn
    boundingBox :=
      { x := (videoWidth - boxSize) * mkRat 1 2
        y := (videoHeight - boxSize) * mkRat 1 2
        width := boxSize
        height := boxSize } }

/-- The function detectObjects of the detection module.  It throws when the
model is not loaded, returns no detection when the video element is missing or
not yet decodable (readyState below 2), converts any inference failure into
the empty result, and otherwise thresholds the winning class, excludes the
empty class, and maps the surviving class to a catalog product. -/
def detectObjects (modelLoaded : Bool) (video : Option VideoElement) :
    Except String (List Detection) :=
  if !modelLoaded then Except.error "Model not loaded"
  else
    match video with
    | none => Except.ok []
    | some v =>
      if v.readyState < 2 then Except.ok []
      else if v.inferenceThrows then Except.ok []
      else
        let confidence := (argmaxLoop v.probabilities).1
        let className := winningLabel v.probabilities
        if confidence < MIN_CONFIDENCE then Except.ok []
        else if className == "empty" then Except.ok []
        else
          match mapClassToProduct className with
          | some product => Except.ok [mkDetection v className confidence product]
          | none => Except.ok []

/-- A frame whose video element reports readyState 0: the video has no
buffered data yet, so it is not decodable. -/
def vNotReady : VideoElement :=
  { readyState := 0, videoWidth := 0, videoHeight := 0
    probabilities := [], inferenceThrows := false }

/-- The scenario frame of the specification: probabilities 0.82 for caffee,
0.10 for water and 0.08 for empty, on a decodable 640 by 480 frame. -/
def v82 : VideoElement :=
  { readyState := 2, videoWidth := 640, videoHeight := 480
    probabilities := [mkRat 82 100, mkRat 10 100, mkRat 8 100]
    inferenceThrows := false }

/-! ## Continuous-detection poller

The detection module drives continuous detection with a self-rescheduling
setTimeout loop.  The state below carries the module variables
continuousDetectionId and continuousDetectionCallback, the set of pending
(scheduled, unfired, uncancelled) timeouts with a fresh-id source, and the
number of detection cycles suspended at the await of detectObjects.  The
fields callbackCalls and cyclesStarted log how often the detection callback
has been invoked and how many detection cycles have begun.  Timer ids are
positive, matching the truthiness tests of the source. -/

/-- The state of the continuous-detection loop of the detection module. -/
structure PollerState where
  modelLoaded : Bool
  continuousDetectionId : Option Nat
  callbackSet : Bool
  pendingTimers : List Nat
  nextTimerId : Nat
  inFlight : Nat
  callbackCalls : Nat
  cyclesStarted : Nat
deriving DecidableEq, Repr

/-- The initial poller state, with the model already loaded when the flag is
true: no timer, no callback, no cycle in flight. -/
def pollerInit (modelLoaded : Bool) : PollerState :=
  { modelLoaded := modelLoaded, continuousDetectionId := none, callbackSet := false
    pendingTimers := [], nextTimerId := 1, inFlight := 0
    callbackCalls := 0, cyclesStarted := 0 }

/-- The tail of the detectFrame closure: setTimeout(detectFrame, interval)
stores a fresh timer id in continuousDetectionId and schedules it. -/
def scheduleNext (s : PollerState) : PollerState :=
  { s with continuousDetectionId := some s.nextTimerId
           pendingTimers := s.pendingTimers ++ [s.nextTimerId]
           nextTimerId := s.nextTimerId + 1 }

/-- The start of one execution of the detectFrame closure.  When the video
element is present, the closure calls detectObjects and suspends at its
await, so a cycle begins and is counted; when the video element is absent,
the closure runs to completion synchronously and only reschedules itself. -/
def beginDetectFrame (videoPresent : Bool) (s : PollerState) : PollerState :=
  if videoPresent then
    { s with inFlight := s.inFlight + 1, cyclesStarted := s.cyclesStarted + 1 }
  else scheduleNext s

/-- The discrete events of the poller event loop: a call to
startContinuousDetection, the firing of a pending timeout, the resumption of
a detection cycle suspended at the await of detectObjects, and a call to
stopContinuousDetection. -/
inductive PollerEvent where
  | start (videoPresent : Bool)
  | timerFires (t : Nat) (videoPresent : Bool)
  | resumeDetect
  | stop
deriving DecidableEq, Repr

/-- One step of the poller event loop, following the source.
startContinuousDetection returns early when continuousDetectionId is truthy
or the model is not loaded, and otherwise sets the callback and runs
detectFrame.  A firing timer leaves continuousDetectionId unchanged (the
stale fired id remains stored, and is truthy) and runs detectFrame.  A
resuming cycle invokes the callback only if continuousDetectionCallback is
still set, then unconditionally reschedules.  stopContinuousDetection is a
no-op when continuousDetectionId is null; otherwise it cancels the stored
timeout and clears the id and the callback. -/
def pollerStep (s : PollerState) : PollerEvent → PollerState
  | .start videoPresent =>
    if s.continuousDetectionId.isSome then s
    else if !s.modelLoaded then s
    else beginDetectFrame videoPresent { s with callbackSet := true }
  | .timerFires t videoPresent =>
    if t ∈ s.pendingTimers then
      beginDetectFrame videoPresent { s with pendingTimers := s.pendingTimers.erase t }
    else s
  | .resumeDetect =>
    if s.inFlight = 0 then s
    else
      scheduleNext
        { s with inFlight := s.inFlight - 1
                 callbackCalls := s.callbackCalls + (if s.callbackSet then 1 else 0) }
  | .stop =>
    match s.continuousDetectionId with
    | some t =>
      { s with pendingTimers := s.pendingTimers.erase t
               continuousDetectionId := none, callbackSet := false }
    | none => s

/-- Run the poller event loop from the initial state with the model loaded. -/
def pollerRun (evs : List PollerEvent) : PollerState :=
  evs.foldl pollerStep (pollerInit true)

/-- The function isContinuousDetectionRunning of the detection module. -/
def isContinuousDetectionRunning (s : PollerState) : Bool :=
  s.continuousDetectionId.isSome

/-- The trace refuting claim C3: start with the video present, call stop
while the first cycle is awaiting the classifier, then let that cycle
resume. -/
def stopDuringFirstCycle : List PollerEvent :=
  [.start true, .stop, .resumeDetect]

/-- The trace refuting claim C2: start, let the first cycle complete and its
timeout fire so a second cycle is in flight, call stop during that cycle,
let the cycle resume, and let the timeout it schedules fire. -/
def stopDuringSecondCycle : List PollerEvent :=
  [.start true, .resumeDetect, .timerFires 1 true, .stop, .resumeDetect, .timerFires 2 true]

/-! ## Cart module -/

/-- A cart item, as built by Cart.addItem. -/
structure CartItem where
  id : Nat
  productId : Nat
  nameAr : String
  nameEn : String
  price : ℚ
  confidence : Option ℚ
  addedAt : String
deriving DecidableEq, Repr

/-- The private state of the cart module: the item list and the monotonic id
counter. -/
structure CartState where
  items : List CartItem
  itemIdCounter : Nat
deriving DecidableEq, Repr

/-- The initial cart state: no items, counter zero. -/
def initialCart : CartState := { items := [], itemIdCounter := 0 }

/-- The function Cart.addItem: appends a new item whose id is the
pre-incremented counter, and returns the item together with the new state.
The addedAt timestamp is passed in by the caller of the model. -/
def addItem (product : Product) (confidence : Option ℚ) (addedAt : String)
    (s : CartState) : CartItem × CartState :=
  let cartItem : CartItem :=
    { id := s.itemIdCounter + 1, productId := product.id, nameAr := product.nameAr
      nameEn := product.nameEn, price := product.price, confidence := confidence
      addedAt := addedAt }
  (cartItem, { items := s.items ++ [cartItem], itemIdCounter := s.itemIdCounter + 1 })

/-- The function Cart.removeItem: finds the index of the first item with the
given id and splices it out; a no-op when the id is absent. -/
def removeItem (itemId : Nat) (s : CartState) : CartState :=
  match s.items.findIdx? (fun item => item.id == itemId) with
  | some index => { s with items := s.items.eraseIdx index }
  | none => s

/-- The function Cart.clearCart: empties the item list (and does not touch
the id counter). -/
def clearCart (s : CartState) : CartState := { s with items := [] }

/-- The function Cart.getTotal: reduce of the item prices from 0. -/
def getTotal (s : CartState) : ℚ :=
  s.items.foldl (fun sum item => sum + item.price) 0

/-- The function Cart.getItemCount. -/
def getItemCount (s : CartState) : Nat := s.items.length

/-- A cart operation: one call to Cart.addItem, Cart.removeItem or
Cart.clearCart. -/
inductive CartOp where
  | add (product : Product) (confidence : Option ℚ) (addedAt : String)
  | remove (itemId : Nat)
  | clear
deriving Repr

/-- One step of a cart operation sequence, also accumulating the list of item
ids issued by addItem so far. -/
def runCartStep : CartState × List Nat → CartOp → CartState × List Nat
  | (s, issued), .add product confidence addedAt =>
    let r := addItem product confidence addedAt s
    (r.2, issued ++ [r.1.id])
  | (s, issued), .remove itemId => (removeItem itemId s, issued)
  | (s, issued), .clear => (clearCart s, issued)

/-- Run a sequence of cart operations from the initial cart, returning the
final state and the ids issued along the way. -/
def runCart (ops : List CartOp) : CartState × List Nat :=
  ops.foldl runCartStep (initialCart, [])

/-- The well-formedness invariant of the cart: every item id is bounded by
the id counter and the item ids are strictly increasing in list order. -/
def cartWellFormed (s : CartState) : Prop :=
  (∀ i ∈ s.items, i.id ≤ s.itemIdCounter)
  ∧ s.items.Pairwise (fun a b => a.id < b.id)

/-- The invariant carried through a run: the cart is well formed and every
issued id is bounded by the id counter. -/
def runInv (p : CartState × List Nat) : Prop :=
  cartWellFormed p.1 ∧ ∀ j ∈ p.2, j ≤ p.1.itemIdCounter

/-- A sample operation sequence: add coffee, add water, remove the first
item. -/
def sampleCartOps : List CartOp :=
  [.add { id := 1, nameAr := "قهوة", nameEn := "Coffee", price := 100, modelClass := "caffee" }
     (some (mkRat 82 100)) "t1",
   .add { id := 2, nameAr := "ماء", nameEn := "Water", price := 30, modelClass := "water" }
     none "t2",
   .remove 1]

/-! ## Stats module -/

/-- The stats record of the stats module. -/
structure StatsRecord where
  itemsScanned : ℚ
  ordersCompleted : ℚ
  totalRevenue : ℚ
deriving DecidableEq, Repr

/-- The initializer of the stats record: all counters zero. -/
def initialStats : StatsRecord :=
  { itemsScanned := 0, ordersCompleted := 0, totalRevenue := 0 }

/-- The content of the pos_stats key of local storage: the key can be absent
(getItem returns null), hold a string JSON.parse throws on (corrupt), or hold
the JSON serialization of a stats record.  JSON round-trips the flat numeric
record exactly, so the last case carries the record itself. -/
inductive Stored where
  | absent
  | corrupt
  | record (r : StatsRecord)
deriving DecidableEq, Repr

/-- The function loadStats: overwrite the current stats with the parsed
stored value when the key holds one; when the key is absent or JSON.parse
throws (the error is caught), keep the current stats unchanged. -/
def loadStats (stored : Stored) (current : StatsRecord) : StatsRecord :=
  match stored with
  | .record r => r
  | .absent => current
  | .corrupt => current

/-- The function saveStats: serialize the stats into the storage key.  When
the write itself fails, the error is caught and the storage keeps its
previous content; writeOk says whether the write succeeds. -/
def saveStats (writeOk : Bool) (stats : StatsRecord) (store : Stored) : Stored :=
  if writeOk then Stored.record stats else store

/-- The function Stats.incrementItemsScanned: add the count and persist. -/
def incrementItemsScanned (count : ℚ) (writeOk : Bool)
    (p : StatsRecord × Stored) : StatsRecord × Stored :=
  let stats := { p.1 with itemsScanned := p.1.itemsScanned + count }
  (stats, saveStats writeOk stats p.2)

/-- The function Stats.incrementOrders: add one order and persist. -/
def incrementOrders (writeOk : Bool) (p : StatsRecord × Stored) :
    StatsRecord × Stored :=
  let stats := { p.1 with ordersCompleted := p.1.ordersCompleted + 1 }
  (stats, saveStats writeOk stats p.2)

/-- The function Stats.addRevenue: add the amount and persist. -/
def addRevenue (amount : ℚ) (writeOk : Bool) (p : StatsRecord × Stored) :
    StatsRecord × Stored :=
  let stats := { p.1 with totalRevenue := p.1.totalRevenue + amount }
  (stats, saveStats writeOk stats p.2)

/-- The function Stats.resetStats: zero all counters and persist. -/
def resetStats (writeOk : Bool) (p : StatsRecord × Stored) :
    StatsRecord × Stored :=
  (initialStats, saveStats writeOk initialStats p.2)

/-- A public mutating operation of the stats module. -/
inductive StatsOp where
  | scan (count : ℚ)
  | order
  | revenue (amount : ℚ)
  | reset
deriving Repr

/-- One stats operation applied to the record and the storage, with the
persisting write succeeding. -/
def runStatsStep (p : StatsRecord × Stored) : StatsOp → StatsRecord × Stored
  | .scan count => incrementItemsScanned count true p
  | .order => incrementOrders true p
  | .revenue amount => addRevenue amount true p
  | .reset => resetStats true p

/-- Run a sequence of stats operations from the startup state (zero counters,
no stored snapshot). -/
def runStats (ops : List StatsOp) : StatsRecord × Stored :=
  ops.foldl runStatsStep (initialStats, Stored.absent)

/-! ## Export module -/

/-- The result value returned by the export functions. -/
structure ExportResult where
  success : Bool
  error : Option String
  orderId : Option String
  filename : Option String
deriving DecidableEq, Repr

/-- The function Export.generateOrderId, with the current time and the random
suffix passed in by the caller of the model. -/
def generateOrderId (timestamp : Nat) (randomSuffix : String) : String :=
  "order_" ++ toString timestamp ++ "_" ++ randomSuffix

/-- The order snapshot produced by Cart.getOrderData. -/
structure OrderData where
  items : List CartItem
  total : ℚ
  itemsCount : Nat
deriving DecidableEq, Repr

/-- The function Cart.getOrderData. -/
def getOrderData (s : CartState) : OrderData :=
  { items := s.items, total := getTotal s, itemsCount := getItemCount s }

/-- The function Export.exportOrder: builds the order export with a fresh
order id and triggers the file download.  Serializing the plain order data
does not throw, so the result is a success carrying the filename; the second
component is the downloaded file, its name and serialized order snapshot
(none means no file was produced). -/
def exportOrder (timestamp : Nat) (randomSuffix : String) (orderData : OrderData) :
    ExportResult × Option (String × OrderData) :=
  let orderId := generateOrderId timestamp randomSuffix
  let filename := "order_" ++ orderId ++ ".json"
  ({ success := true, error := none, orderId := some orderId, filename := some filename },
   some (filename, orderData))

/-- The function Export.exportCurrentCart: fails with the Cart is empty error
and produces no file when the cart has no items, and otherwise exports the
order snapshot. -/
def exportCurrentCart (timestamp : Nat) (randomSuffix : String) (cart : CartState) :
    ExportResult × Option (String × OrderData) :=
  let orderData := getOrderData cart
  if orderData.items.length = 0 then
    ({ success := false, error := some "Cart is empty", orderId := none, filename := none },
     none)
  else
    exportOrder timestamp randomSuffix orderData

/-! ## Order completion (app module) -/

/-- The complete-order click handler of the app module, on the cart, the
stats and the storage.  It returns early when the cart is empty or the user
does not confirm; otherwise it exports the order and, only on export success,
increments the completed orders, adds the order total to the revenue, and
clears the cart.  UI refreshes and the stopping of the continuous scan are
elided; exportOk is the success of the export result and writeOk the success
of the persisting writes. -/
def completeOrder (confirmed exportOk writeOk : Bool) (cart : CartState)
    (stats : StatsRecord) (store : Stored) : CartState × StatsRecord × Stored :=
  let orderData := getOrderData cart
  if orderData.items.length = 0 then (cart, stats, store)
  else if !confirmed then (cart, stats, store)
  else if exportOk then
    let p1 := incrementOrders writeOk (stats, store)
    let p2 := addRevenue orderData.total writeOk p1
    (clearCart cart, p2.1, p2.2)
  else (cart, stats, store)

/-- A cart holding two coffees and one water, total 230 DZD. -/
def cart230 : CartState :=
  { items :=
      [{ id := 1, productId := 1, nameAr := "قهوة", nameEn := "Coffee", price := 100,
         confidence := none, addedAt := "t1" },
       { id := 2, productId := 1, nameAr := "قهوة", nameEn := "Coffee", price := 100,
         confidence := none, addedAt := "t2" },
       { id := 3, productId := 2, nameAr := "ماء", nameEn := "Water", price := 30,
         confidence := none, addedAt := "t3" }]
    itemIdCounter := 3 }

/-! ## Theorems: detection pipeline -/

/-- Evaluation of detectObjects on a loaded model and a decodable,
non-throwing frame, written as the cascade of guards of the source. -/
theorem detectObjects_eval (v : VideoElement) (h1 : ¬ v.readyState < 2)
    (h2 : v.inferenceThrows = false) :
    detectObjects true (some v) =
      (if (argmaxLoop v.probabilities).1 < MIN_CONFIDENCE then Except.ok []
       else if winningLabel v.probabilities == "empty" then Except.ok []
       else
         match mapClassToProduct (winningLabel v.probabilities) with
         | some product =>
             Except.ok [mkDetection v (winningLabel v.probabilities)
               (argmaxLoop v.probabilities).1 product]
         | none => Except.ok []) := by
  simp only [detectObjects, Bool.not_true, Bool.false_eq_true, if_false, if_neg h1, h2]

/-- Claim C1: with the model loaded and the frame decodable and classified
(no inference failure), detectObjects returns exactly one detection if and
only if the winning confidence is at least 0.5, the winning label is not
empty, and the label maps to a catalog product by trimmed, case-insensitive
match; in every other case it returns the empty list, and it never returns
more than one detection. -/
theorem detectObjects_single_detection_iff (v : VideoElement)
    (hready : 2 ≤ v.readyState) (hnothrow : v.inferenceThrows = false) :
    ((∃ d, detectObjects true (some v) = Except.ok [d]) ↔
      (MIN_CONFIDENCE ≤ (argmaxLoop v.probabilities).1
        ∧ winningLabel v.probabilities ≠ "empty"
        ∧ (mapClassToProduct (winningLabel v.probabilities)).isSome = true))
    ∧ (¬ (MIN_CONFIDENCE ≤ (argmaxLoop v.probabilities).1
        ∧ winningLabel v.probabilities ≠ "empty"
        ∧ (mapClassToProduct (winningLabel v.probabilities)).isSome = true)
       → detectObjects true (some v) = Except.ok [])
    ∧ (∀ l, detectObjects true (some v) = Except.ok l → l.length ≤ 1) := by
  have h1 : ¬ v.readyState < 2 := Nat.not_lt.mpr hready
  rw [detectObjects_eval v h1 hnothrow]
  by_cases hconf : (argmaxLoop v.probabilities).1 < MIN_CONFIDENCE
  · simp [hconf, not_le.mpr hconf]
  · by_cases hempty : winningLabel v.probabilities = "empty"
    · simp [hconf, hempty]
    · cases hm : mapClassToProduct (winningLabel v.probabilities) with
      | some product =>
        simp [hconf, hempty, hm, not_le.mp, le_of_not_lt hconf]
      | none =>
        simp [hconf, hempty, hm]

/-- Witness for claim C1: on the scenario frame with probabilities 0.82, 0.10
and 0.08, the pipeline emits exactly one detection. -/
theorem detectObjects_single_detection_iff_witness :
    ∃ d, detectObjects true (some v82) = Except.ok [d] :=
  (detectObjects_single_detection_iff v82 (by decide) rfl).1.mpr (by decide)

/-- With the model loaded, detectObjects always returns an ok result. -/
theorem detectObjects_true_isOk (video : Option VideoElement) :
    ∃ l, detectObjects true video = Except.ok l := by
  cases video with
  | none => exact ⟨[], rfl⟩
  | some v =>
    by_cases h1 : v.readyState < 2
    · exact ⟨[], by simp [detectObjects, h1]⟩
    · by_cases h2 : v.inferenceThrows
      · exact ⟨[], by simp [detectObjects, h1, h2]⟩
      · rw [detectObjects_eval v h1 (by simpa using h2)]
        by_cases hconf : (argmaxLoop v.probabilities).1 < MIN_CONFIDENCE
        · exact ⟨[], by simp [hconf]⟩
        · by_cases hempty : winningLabel v.probabilities = "empty"
          · exact ⟨[], by simp [hconf, hempty]⟩
          · cases hm : mapClassToProduct (winningLabel v.probabilities) with
            | some product =>
              exact ⟨[mkDetection v (winningLabel v.probabilities)
                (argmaxLoop v.probabilities).1 product], by simp [hconf, hempty, hm]⟩
            | none => exact ⟨[], by simp [hconf, hempty, hm]⟩

/-- Claim C6: detectObjects raises an error exactly when invoked before a
successful model load, and that error is the descriptive message Model not
loaded; once the model is loaded it never produces an error: a frame that is
missing or not yet decodable yields the empty result, and an inference
failure is caught and converted to the empty result. -/
theorem detectObjects_error_handling (loaded : Bool) (video : Option VideoElement) :
    ((∃ e, detectObjects loaded video = Except.error e) ↔ loaded = false)
    ∧ (loaded = false → detectObjects loaded video = Except.error "Model not loaded")
    ∧ (∀ v, video = some v → loaded = true → v.readyState < 2 →
        detectObjects loaded video = Except.ok [])
    ∧ (∀ v, video = some v → loaded = true → v.inferenceThrows = true →
        detectObjects loaded video = Except.ok [])
    ∧ (loaded = true → ∃ l, detectObjects loaded video = Except.ok l) := by
  cases loaded with
  | false =>
    refine ⟨⟨fun _ => rfl, fun _ => ⟨"Model not loaded", rfl⟩⟩, fun _ => rfl, ?_, ?_, ?_⟩
    · intro v hv hcontra; exact absurd hcontra (by simp)
    · intro v hv hcontra; exact absurd hcontra (by simp)
    · intro hcontra; exact absurd hcontra (by simp)
  | true =>
    obtain ⟨l, hl⟩ := detectObjects_true_isOk video
    refine ⟨⟨?_, by simp⟩, by simp, ?_, ?_, fun _ => ⟨l, hl⟩⟩
    · rintro ⟨e, he⟩; rw [hl] at he; exact absurd he (by simp)
    · rintro v rfl _ hlt; simp [detectObjects, hlt]
    · rintro v rfl _ hthrows
      by_cases h1 : v.readyState < 2
      · simp [detectObjects, h1]
      · simp [detectObjects, h1, hthrows]

/-- Witness for claim C6: invoked before any model load, detectObjects fails
fast with the descriptive error, and on a not-yet-decodable frame with the
model loaded it returns the empty result. -/
theorem detectObjects_error_handling_witness :
    detectObjects false none = Except.error "Model not loaded"
    ∧ detectObjects true (some vNotReady) = Except.ok [] :=
  ⟨(detectObjects_error_handling false none).2.1 rfl,
   (detectObjects_error_handling true (some vNotReady)).2.2.1 vNotReady rfl rfl
     (by decide)⟩

/-! ## Theorems: continuous-detection poller -/

/-- Claim C3 is violated by the code: when stopContinuousDetection is called
while the first detection cycle is awaiting the classifier,
continuousDetectionId is still null, so stop is a no-op, the callback stays
set, and the in-flight cycle invokes the detection callback once after stop
has returned instead of discarding its result. -/
theorem poller_callback_invoked_after_stop :
    (pollerRun [.start true, .stop]).callbackCalls = 0
    ∧ (pollerRun stopDuringFirstCycle).callbackCalls = 1
    ∧ stopDuringFirstCycle = [.start true, .stop] ++ [.resumeDetect] := by decide

/-- Claim C2 is violated by the code: when stopContinuousDetection is called
while a detection cycle is in flight, the cycle reschedules itself through
setTimeout after stop has returned, so a third detection cycle starts after
stop and isContinuousDetectionRunning returns true again without any call to
start. -/
theorem poller_cycle_starts_after_stop :
    (pollerRun [.start true, .resumeDetect, .timerFires 1 true, .stop]).cyclesStarted = 2
    ∧ isContinuousDetectionRunning
        (pollerRun [.start true, .resumeDetect, .timerFires 1 true, .stop]) = false
    ∧ isContinuousDetectionRunning
        (pollerRun [.start true, .resumeDetect, .timerFires 1 true, .stop, .resumeDetect]) = true
    ∧ (pollerRun stopDuringSecondCycle).cyclesStarted = 3 := by decide

/-! ## Theorems: cart module -/

/-- Folding price addition over a list equals the initial value plus the sum
of the prices. -/
theorem foldl_add_price (l : List CartItem) (a : ℚ) :
    l.foldl (fun sum item => sum + item.price) a = a + (l.map CartItem.price).sum := by
  induction l generalizing a with
  | nil => simp
  | cons x xs ih => simp [ih, add_assoc]

/-- Claim C4: after any sequence of cart operations, getTotal equals the sum
of the prices of the items currently in the cart. -/
theorem cart_total_invariant (ops : List CartOp) :
    getTotal (runCart ops).1 = (((runCart ops).1.items.map CartItem.price).sum) := by
  rw [getTotal, foldl_add_price, zero_add]

/-- The run invariant holds initially. -/
theorem runInv_init : runInv (initialCart, []) := by
  refine ⟨⟨?_, ?_⟩, ?_⟩ <;> simp [initialCart]

/-- The items of removeItem form a sublist of the original items. -/
theorem removeItem_sublist (itemId : Nat) (s : CartState) :
    List.Sublist (removeItem itemId s).items s.items := by
  rw [removeItem]
  cases h : s.items.findIdx? (fun item => item.id == itemId) with
  | none => simp
  | some index => simpa using List.eraseIdx_sublist s.items index

/-- The item id counter is untouched by removeItem. -/
theorem removeItem_itemIdCounter (itemId : Nat) (s : CartState) :
    (removeItem itemId s).itemIdCounter = s.itemIdCounter := by
  rw [removeItem]
  cases h : s.items.findIdx? (fun item => item.id == itemId) <;> rfl

/-- The run invariant is preserved by every cart operation. -/
theorem runInv_step (p : CartState × List Nat) (op : CartOp) (h : runInv p) :
    runInv (runCartStep p op) := by
  obtain ⟨s, issued⟩ := p
  obtain ⟨⟨hbound, hsorted⟩, hissued⟩ := h
  cases op with
  | add product confidence addedAt =>
    refine ⟨⟨?_, ?_⟩, ?_⟩
    · intro i hi
      rcases List.mem_append.mp hi with hi | hi
      · exact Nat.le_succ_of_le (hbound i hi)
      · simp only [List.mem_singleton] at hi
        simp [hi, runCartStep, addItem]
    · refine List.pairwise_append.mpr ⟨hsorted, List.pairwise_singleton _ _, ?_⟩
      intro a ha b hb
      simp only [List.mem_singleton] at hb
      subst hb
      exact Nat.lt_succ_of_le (hbound a ha)
    · intro j hj
      rcases List.mem_append.mp hj with hj | hj
      · exact Nat.le_succ_of_le (hissued j hj)
      · simp only [List.mem_singleton] at hj
        simp [hj, runCartStep, addItem]
  | remove itemId =>
    refine ⟨⟨?_, ?_⟩, ?_⟩
    · intro i hi
      rw [runCartStep, removeItem_itemIdCounter]
      exact hbound i ((removeItem_sublist itemId s).subset hi)
    · exact hsorted.sublist (removeItem_sublist itemId s)
    · intro j hj
      rw [runCartStep, removeItem_itemIdCounter]
      exact hissued j hj
  | clear =>
    exact ⟨⟨by simp [runCartStep, clearCart], by simp [runCartStep, clearCart]⟩, hissued⟩

/-- The run invariant holds after any sequence of cart operations. -/
theorem runInv_run (ops : List CartOp) : runInv (runCart ops) := by
  rw [runCart]
  generalize hinit : (initialCart, ([] : List Nat)) = p
  have h : runInv p := hinit ▸ runInv_init
  clear hinit
  induction ops generalizing p with
  | nil => exact h
  | cons op rest ih => exact ih _ (runInv_step p op h)

/-- Erasing one index removes at most one element. -/
theorem length_le_eraseIdx_succ {α : Type _} (l : List α) (i : Nat) :
    l.length ≤ (l.eraseIdx i).length + 1 := by
  induction l generalizing i with
  | nil => simp
  | cons a l ih =>
    cases i with
    | zero => simp
    | succ i =>
      simpa [List.eraseIdx, Nat.succ_le_succ_iff] using ih i

/-- Claim C10: cart item ids are globally fresh.  After any sequence of cart
operations, the ids of the items in the cart are pairwise distinct; a further
addItem issues the id counter plus one, which is strictly greater than every
id issued so far and in particular never reuses one (the counter is never
reset by removeItem or clearCart); and removeItem removes at most one item. -/
theorem cart_ids_globally_fresh (ops : List CartOp) :
    (((runCart ops).1.items.map CartItem.id).Nodup)
    ∧ (∀ product confidence addedAt,
        (addItem product confidence addedAt (runCart ops).1).1.id
          = (runCart ops).1.itemIdCounter + 1)
    ∧ (∀ product confidence addedAt, ∀ j ∈ (runCart ops).2,
        j < (addItem product confidence addedAt (runCart ops).1).1.id)
    ∧ (∀ product confidence addedAt,
        (addItem product confidence addedAt (runCart ops).1).1.id ∉ (runCart ops).2)
    ∧ (∀ itemId,
        (runCart ops).1.items.length ≤ ((removeItem itemId (runCart ops).1).items).length + 1) := by
  obtain ⟨⟨hbound, hsorted⟩, hissued⟩ := runInv_run ops
  refine ⟨?_, fun _ _ _ => rfl, ?_, ?_, ?_⟩
  · exact hsorted.map CartItem.id (fun a b h => Nat.ne_of_lt h)
  · intro product confidence addedAt j hj
    exact Nat.lt_succ_of_le (hissued j hj)
  · intro product confidence addedAt hmem
    exact absurd (hissued _ hmem) (by simp [addItem])
  · intro itemId
    rw [removeItem]
    cases h : (runCart ops).1.items.findIdx? (fun item => item.id == itemId) with
    | none => exact Nat.le_succ _
    | some index => exact length_le_eraseIdx_succ _ index

/-- Witness for claim C10: on the sample operation sequence the remaining
item ids are distinct and the next issued id is 3. -/
theorem cart_ids_globally_fresh_witness :
    (((runCart sampleCartOps).1.items.map CartItem.id).Nodup)
    ∧ (addItem { id := 1, nameAr := "a", nameEn := "a", price := 0, modelClass := "a" }
        none "t" (runCart sampleCartOps).1).1.id = 3 :=
  ⟨(cart_ids_globally_fresh sampleCartOps).1,
   (cart_ids_globally_fresh sampleCartOps).2.1 _ none "t"⟩

/-! ## Theorems: stats, export and order completion -/

/-- Claim C5: completing a confirmed order on a non-empty cart, when the
export succeeds, increments ordersCompleted by exactly one, increments
totalRevenue by exactly the cart total (leaving itemsScanned unchanged, and
never decreasing totalRevenue when the total is non-negative), and clears the
cart to zero items. -/
theorem completeOrder_nonempty_success (cart : CartState) (stats : StatsRecord)
    (store : Stored) (writeOk : Bool) (h : cart.items ≠ []) :
    (completeOrder true true writeOk cart stats store).1.items = []
    ∧ (completeOrder true true writeOk cart stats store).2.1.ordersCompleted
        = stats.ordersCompleted + 1
    ∧ (completeOrder true true writeOk cart stats store).2.1.totalRevenue
        = stats.totalRevenue + getTotal cart
    ∧ (completeOrder true true writeOk cart stats store).2.1.itemsScanned
        = stats.itemsScanned
    ∧ (0 ≤ getTotal cart →
        stats.totalRevenue
          ≤ (completeOrder true true writeOk cart stats store).2.1.totalRevenue) := by
  have hlen : ¬ ((getOrderData cart).items.length = 0) := by
    simp [getOrderData, List.length_eq_zero, h]
  refine ⟨?_, ?_, ?_, ?_, ?_⟩
  · simp [completeOrder, hlen, h, clearCart]
  · simp [completeOrder, hlen, h, incrementOrders, addRevenue]
  · simp [completeOrder, hlen, h, incrementOrders, addRevenue, getOrderData]
  · simp [completeOrder, hlen, h, incrementOrders, addRevenue]
  · intro h0
    have heq : (completeOrder true true writeOk cart stats store).2.1.totalRevenue
        = stats.totalRevenue + getTotal cart := by
      simp [completeOrder, hlen, h, incrementOrders, addRevenue, getOrderData]
    rw [heq]
    exact le_add_of_nonneg_right h0

/-- Witness for claim C5: completing the 230 DZD order from zero stats clears
the cart and raises the revenue by the cart total. -/
theorem completeOrder_nonempty_success_witness :
    (completeOrder true true true cart230 initialStats Stored.absent).1.items = []
    ∧ (completeOrder true true true cart230 initialStats Stored.absent).2.1.totalRevenue
        = initialStats.totalRevenue + getTotal cart230 :=
  ⟨(completeOrder_nonempty_success cart230 initialStats Stored.absent true (by decide)).1,
   (completeOrder_nonempty_success cart230 initialStats Stored.absent true (by decide)).2.2.1⟩

/-- Claim C7: for every stats record reachable by the public stats
operations, saving it and then reloading from the persisted snapshot, as at a
process restart, reproduces the prior counters exactly. -/
theorem stats_save_load_roundtrip (ops : List StatsOp) (current : StatsRecord)
    (store : Stored) :
    loadStats (saveStats true (runStats ops).1 store) current = (runStats ops).1 := rfl

/-- Claim C8: when the persisted stats are absent or corrupt, loading keeps
the startup record, so the stats fall back to all-zero counters; loadStats is
a total function, so the failure never propagates to its caller. -/
theorem loadStats_fallback_zeros :
    loadStats Stored.absent initialStats = initialStats
    ∧ loadStats Stored.corrupt initialStats = initialStats
    ∧ initialStats.itemsScanned = 0
    ∧ initialStats.ordersCompleted = 0
    ∧ initialStats.totalRevenue = 0 :=
  ⟨rfl, rfl, rfl, rfl, rfl⟩

/-- Claim C9: exporting with an empty cart returns a failure result carrying
the descriptive Cart is empty error and produces no file. -/
theorem exportCurrentCart_empty_cart (timestamp : Nat) (randomSuffix : String)
    (cart : CartState) (h : cart.items = []) :
    (exportCurrentCart timestamp randomSuffix cart).1.success = false
    ∧ (exportCurrentCart timestamp randomSuffix cart).1.error = some "Cart is empty"
    ∧ (exportCurrentCart timestamp randomSuffix cart).1.filename = none
    ∧ (exportCurrentCart timestamp randomSuffix cart).2 = none := by
  refine ⟨?_, ?_, ?_, ?_⟩ <;> simp [exportCurrentCart, getOrderData, h]

/-- Witness for claim C9: exporting the initial empty cart fails with the
Cart is empty error and no file. -/
theorem exportCurrentCart_empty_cart_witness :
    (exportCurrentCart 0 "abc123" initialCart).1.error = some "Cart is empty"
    ∧ (exportCurrentCart 0 "abc123" initialCart).2 = none :=
  ⟨(exportCurrentCart_empty_cart 0 "abc123" initialCart rfl).2.1,
   (exportCurrentCart_empty_cart 0 "abc123" initialCart rfl).2.2.2⟩
